import Mathlib

/-!
Shallow embedding of the FilamentLabelD30 verification scripts.

The repository holds three standalone Playwright scripts:
  - src/scripts/verify_ui.py            (function verify_ui)
  - src/verification/verify_manual_button.py  (function verify_manual_button)
  - src/verification/verify_analysis_ui.py    (function verify_analysis_ui)

Each script is a linear sequence of browser-automation calls.  We embed
each call as an `Event` appended to a trace, and model failure of a call
(a raised Python exception) through an `Env` oracle that decides, for each
fallible primitive, whether it succeeds or raises with a given message.
Python's try/except/finally is embedded explicitly as `tryExceptFinally`.
A run of a script yields a `Py Unit`: the trace of effects that actually
happened, plus either normal completion or an uncaught exception escaping
the function (Python would turn the latter into a non-zero exit).
-/

namespace FilamentLabelD30

/-- One observable effect of a script run.  Each constructor corresponds to
one Playwright / filesystem / console call in the Python sources.  An event
appears in the trace only when the call succeeded. -/
inductive Event where
  | launch : Event
  | newContext (w h : Nat) : Event
  | newPage : Event
  | print (s : String) : Event
  | goto (url : String) : Event
  | writeFile (path : String) (content : List Nat) : Event
  | locate (sel : String) : Event
  | isVisibleCheck (sel : String) : Event
  | setInputFiles (sel : String) (path : String) : Event
  | waitForSelector (sel : String) (timeoutMs : Option Nat) : Event
  | scrollIntoView : Event
  | screenshot (path : String) : Event
  | clickText (t : String) : Event
  | browserClose : Event
deriving DecidableEq, Repr

/-- Outcome of a straight-line piece of Python code: the events it emitted,
and either a value or the message of the exception it raised. -/
structure Py (α : Type) where
  events : List Event
  result : Except String α
deriving Repr

/-- Sequencing of Python statements: once an exception is raised, the rest
of the block does not run; traces concatenate. -/
def Py.bind {α β : Type} : Py α → (α → Py β) → Py β
  | ⟨evs, Except.error m⟩, _ => ⟨evs, Except.error m⟩
  | ⟨evs, Except.ok a⟩, f => ⟨evs ++ (f a).events, (f a).result⟩

instance : Monad Py where
  pure a := ⟨[], Except.ok a⟩
  bind := Py.bind

theorem Py.bind_eq {α β : Type} (x : Py α) (f : α → Py β) :
    x >>= f = Py.bind x f := rfl

/-- An infallible call: emits its event and continues. -/
def pyDo (ev : Event) : Py Unit := ⟨[ev], Except.ok ()⟩

/-- `print(...)`. -/
def pyPrint (s : String) : Py Unit := pyDo (Event.print s)

/-- A fallible call, resolved by the environment oracle: `none` means the
call succeeds (and its event is recorded), `some m` means it raises an
exception with message `m` (no effect recorded). -/
def pyTry (ev : Event) (r : Option String) : Py Unit :=
  match r with
  | none => ⟨[ev], Except.ok ()⟩
  | some m => ⟨[], Except.error m⟩

/-- A fallible boolean query (`is_visible()`). -/
def pyCheck (ev : Event) (r : Except String Bool) : Py Bool :=
  match r with
  | Except.ok b => ⟨[ev], Except.ok b⟩
  | Except.error m => ⟨[], Except.error m⟩

/-- Python `try: body except Exception as e: handler(e) finally: fin`.
If the body succeeds, the handler does not run.  If the body raises, the
handler runs; if the handler itself raises, that new exception propagates
after `fin` runs.  `fin` runs on every path (here `fin` never raises,
matching `browser.close()` in the sources). -/
def tryExceptFinally (body : Py Unit) (handler : String → Py Unit)
    (fin : Py Unit) : Py Unit :=
  match body with
  | ⟨evs, Except.ok _⟩ => ⟨evs ++ fin.events, fin.result⟩
  | ⟨evs, Except.error m⟩ =>
    match handler m with
    | ⟨hevs, Except.ok _⟩ => ⟨evs ++ hevs ++ fin.events, fin.result⟩
    | ⟨hevs, Except.error m2⟩ =>
      ⟨evs ++ hevs ++ fin.events,
        match fin.result with
        | Except.ok _ => Except.error m2
        | Except.error mf => Except.error mf⟩

/-- Environment oracle: decides which browser/filesystem primitives fail,
and with what exception message.  `shotErr` is consulted per screenshot
path, so the success-path screenshot and the diagnostic error screenshot
can fail independently. -/
structure Env where
  gotoErr : Option String
  waitErr : Option String
  isVisibleRes : Except String Bool
  scrollErr : Option String
  shotErr : String → Option String
  writeErr : Option String
  setFilesErr : Option String
  clickErr : Option String

/-- The byte literal written to verification/dummy.png in
verify_analysis_ui.py line 37, transcribed byte for byte. -/
def dummy_png_bytes : List Nat :=
  [137, 80, 78, 71, 13, 10, 26, 10,
   0, 0, 0, 13, 73, 72, 68, 82,
   0, 0, 0, 1, 0, 0, 0, 1, 8, 6, 0, 0, 0,
   31, 21, 196, 137,
   0, 0, 0, 10, 73, 68, 65, 84,
   120, 156, 99, 0, 1, 0, 0, 5, 0, 1,
   13, 10, 45, 180,
   0, 0, 0, 0, 73, 69, 78, 68,
   174, 66, 96, 130]

/-- `p.chromium.launch(...)`, `browser.new_context(viewport=...)`,
`context.new_page()`: the setup shared by all three scripts
(viewport 393x852 in each). -/
def setup : Py Unit := do
  pyDo Event.launch
  pyDo (Event.newContext 393 852)
  pyDo Event.newPage

/-- src/scripts/verify_ui.py, function verify_ui, transcribed statement by
statement.  Note: no try/except/finally; `browser.close()` is the last
statement of the straight-line body. -/
def verify_ui (env : Env) : Py Unit := do
  setup
  pyTry (Event.goto "http://localhost:3000/") env.gotoErr
  pyTry (Event.screenshot "/home/jules/verification/home_v2.png")
    (env.shotErr "/home/jules/verification/home_v2.png")
  pyPrint "Home screenshot taken"
  pyTry (Event.clickText "Manual") env.clickErr
  pyTry (Event.screenshot "/home/jules/verification/editor_v2.png")
    (env.shotErr "/home/jules/verification/editor_v2.png")
  pyPrint "Editor screenshot taken"
  pyDo Event.browserClose

/-- The try-block body of verify_manual_button (lines 12-35). -/
def verify_manual_button_body (env : Env) : Py Unit := do
  pyPrint "Navigating to home..."
  pyTry (Event.goto "http://localhost:3000") env.gotoErr
  pyPrint "Waiting for \x27Filament ID\x27..."
  pyTry (Event.waitForSelector "text=Filament ID" none) env.waitErr
  pyDo (Event.locate "text=Manual")
  pyPrint "Checking visibility..."
  let vis ← pyCheck (Event.isVisibleCheck "text=Manual") env.isVisibleRes
  if vis then do
    pyPrint "Manual button visible."
    pyTry Event.scrollIntoView env.scrollErr
    pyPrint "Taking screenshot..."
    pyTry (Event.screenshot "verification/manual_button_check.png")
      (env.shotErr "verification/manual_button_check.png")
    pyPrint "Screenshot saved to verification/manual_button_check.png"
  else
    pyPrint "Manual button NOT visible!"

/-- The except-block of verify_manual_button (lines 37-39): print the
error, then attempt a diagnostic screenshot (not itself guarded). -/
def verify_manual_button_handler (env : Env) (m : String) : Py Unit := do
  pyPrint ("Error: " ++ m)
  pyTry (Event.screenshot "verification/error.png")
    (env.shotErr "verification/error.png")

/-- src/verification/verify_manual_button.py, function
verify_manual_button. -/
def verify_manual_button (env : Env) : Py Unit := do
  setup
  tryExceptFinally (verify_manual_button_body env)
    (verify_manual_button_handler env) (pyDo Event.browserClose)

/-- The try-block body of verify_analysis_ui (lines 12-52). -/
def verify_analysis_ui_body (env : Env) : Py Unit := do
  pyPrint "Navigating to home..."
  pyTry (Event.goto "http://localhost:3000") env.gotoErr
  pyPrint "Uploading dummy image..."
  pyTry (Event.writeFile "verification/dummy.png" dummy_png_bytes) env.writeErr
  pyDo (Event.locate "input[type=\"file\"]")
  pyTry (Event.setInputFiles "input[type=\"file\"]" "verification/dummy.png")
    env.setFilesErr
  pyPrint "Waiting for Analysis View..."
  pyTry (Event.waitForSelector "text=NEURAL SCAN" (some 5000)) env.waitErr
  pyPrint "Taking screenshot..."
  pyTry (Event.screenshot "verification/analysis_ui_check.png")
    (env.shotErr "verification/analysis_ui_check.png")
  pyPrint "Screenshot saved to verification/analysis_ui_check.png"

/-- The except-block of verify_analysis_ui (lines 54-56). -/
def verify_analysis_ui_handler (env : Env) (m : String) : Py Unit := do
  pyPrint ("Error: " ++ m)
  pyTry (Event.screenshot "verification/error_analysis.png")
    (env.shotErr "verification/error_analysis.png")

/-- src/verification/verify_analysis_ui.py, function verify_analysis_ui. -/
def verify_analysis_ui (env : Env) : Py Unit := do
  setup
  tryExceptFinally (verify_analysis_ui_body env)
    (verify_analysis_ui_handler env) (pyDo Event.browserClose)

/-- Screenshot files successfully captured during a run, in order. -/
def screenshotsOf (evs : List Event) : List String :=
  evs.filterMap fun e =>
    match e with
    | Event.screenshot p => some p
    | _ => none

/-- The wait-for-text steps performed during a run, with their timeout
argument (`none` = no explicit timeout passed). -/
def waitsOf (evs : List Event) : List (String × Option Nat) :=
  evs.filterMap fun e =>
    match e with
    | Event.waitForSelector s t => some (s, t)
    | _ => none

/-- Effective bound of a wait step, in milliseconds: Playwright's
documented default of 30000 ms applies when no timeout is passed. -/
def effectiveTimeoutMs : Option Nat → Nat
  | none => 30000
  | some t => t

/-- Contents of a file after a run: either bytes written by the script, or
a browser screenshot capture. -/
inductive FileData where
  | bytes (l : List Nat) : FileData
  | capture : FileData
deriving DecidableEq, Repr

/-- Effect of one event on the filesystem. -/
def applyEvent (fs : String → Option FileData) : Event → (String → Option FileData)
  | Event.writeFile p b => fun q => if q = p then some (FileData.bytes b) else fs q
  | Event.screenshot p => fun q => if q = p then some FileData.capture else fs q
  | _ => fs

/-- Filesystem state after a run, given the state before it. -/
def finalFS (fs : String → Option FileData) (evs : List Event) :
    String → Option FileData :=
  evs.foldl applyEvent fs

/-! ### PNG structure -/

/-- The 8-byte PNG file signature. -/
def pngSignature : List Nat := [137, 80, 78, 71, 13, 10, 26, 10]

/-- Big-endian 32-bit value from four bytes. -/
def be32 (a b c d : Nat) : Nat := ((a * 256 + b) * 256 + c) * 256 + d

/-- Checks the PNG chunk layout after the signature: a sequence of chunks
(4-byte big-endian length, 4-byte type, data, 4-byte CRC) that consumes
the whole input and ends exactly at an empty IEND chunk. -/
def chunksOk : Nat → List Nat → Bool
  | 0, _ => false
  | fuel + 1, a :: b :: c :: d :: t1 :: t2 :: t3 :: t4 :: rest =>
    let len := be32 a b c d
    if rest.length < len + 4 then false
    else if t1 == 73 && t2 == 69 && t3 == 78 && t4 == 68 then
      len == 0 && (rest.drop (len + 4)).isEmpty
    else chunksOk fuel (rest.drop (len + 4))
  | _ + 1, _ => false

/-- Width and height declared by the IHDR chunk, when the input starts
with the signature followed by a 13-byte IHDR chunk. -/
def ihdrWH (l : List Nat) : Option (Nat × Nat) :=
  match l.drop 8 with
  | 0 :: 0 :: 0 :: 13 :: 73 :: 72 :: 68 :: 82 ::
      w1 :: w2 :: w3 :: w4 :: h1 :: h2 :: h3 :: h4 :: _ =>
    some (be32 w1 w2 w3 w4, be32 h1 h2 h3 h4)
  | _ => none

/-- One round of the reflected CRC-32 shift (polynomial 0xEDB88320). -/
def crcStep (c : Nat) : Nat :=
  if c % 2 = 1 then Nat.xor (c / 2) 3988292384 else c / 2

/-- `n` rounds of the CRC-32 shift. -/
def crcRounds : Nat → Nat → Nat
  | 0, c => c
  | n + 1, c => crcRounds n (crcStep c)

/-- CRC-32 (as used by PNG) of a byte list. -/
def crc32 (l : List Nat) : Nat :=
  Nat.xor (l.foldl (fun c b => crcRounds 8 (Nat.xor c (b % 256))) 4294967295)
    4294967295

/-! ### Named environments used in concrete runs -/

/-- Every primitive succeeds; the visibility check returns true. -/
def envOk : Env := ⟨none, none, Except.ok true, none, fun _ => none, none, none, none⟩

/-- `page.goto` raises (e.g. the dev server is not running); everything
else would succeed. -/
def envGotoFail : Env :=
  ⟨some "net::ERR_CONNECTION_REFUSED", none, Except.ok true, none,
    fun _ => none, none, none, none⟩

/-- `page.goto` raises, and the diagnostic screenshot taken inside the
except-block raises as well. -/
def envShotAlsoFails : Env :=
  ⟨some "net::ERR_CONNECTION_REFUSED", none, Except.ok true, none,
    fun p => if p = "verification/error.png" then some "Target closed" else none,
    none, none, none⟩

/-- Every step succeeds but the visibility check on the Manual button
returns false. -/
def envNotVisible : Env :=
  ⟨none, none, Except.ok false, none, fun _ => none, none, none, none⟩

/-- The wait-for-text step times out; everything else succeeds. -/
def envWaitTimeout : Env :=
  ⟨none, some "Timeout 5000ms exceeded.", Except.ok true, none,
    fun _ => none, none, none, none⟩

/-- `set_input_files` raises (no matching file input); everything else
succeeds. -/
def envUploadFail : Env :=
  ⟨none, none, Except.ok true, none, fun _ => none, none,
    some "no element matches the selector", none⟩

/-- A filesystem on which verification/dummy.png already exists with
contents different from the PNG literal. -/
def fsPre : String → Option FileData :=
  fun p => if p = "verification/dummy.png" then some (FileData.bytes [0]) else none

/-! ### Structural lemmas about the embedding -/

theorem verify_ui_events (env : Env) :
    (verify_ui env).events
      = [Event.launch, Event.newContext 393 852, Event.newPage]
        ++ (pyTry (Event.goto "http://localhost:3000/") env.gotoErr >>= fun _ =>
            pyTry (Event.screenshot "/home/jules/verification/home_v2.png")
              (env.shotErr "/home/jules/verification/home_v2.png") >>= fun _ =>
            pyPrint "Home screenshot taken" >>= fun _ =>
            pyTry (Event.clickText "Manual") env.clickErr >>= fun _ =>
            pyTry (Event.screenshot "/home/jules/verification/editor_v2.png")
              (env.shotErr "/home/jules/verification/editor_v2.png") >>= fun _ =>
            pyPrint "Editor screenshot taken" >>= fun _ =>
            pyDo Event.browserClose).events := rfl

theorem verify_manual_button_decompose (env : Env) :
    verify_manual_button env
      = ⟨[Event.launch, Event.newContext 393 852, Event.newPage]
          ++ (tryExceptFinally (verify_manual_button_body env)
              (verify_manual_button_handler env) (pyDo Event.browserClose)).events,
         (tryExceptFinally (verify_manual_button_body env)
            (verify_manual_button_handler env) (pyDo Event.browserClose)).result⟩ := rfl

theorem verify_analysis_ui_decompose (env : Env) :
    verify_analysis_ui env
      = ⟨[Event.launch, Event.newContext 393 852, Event.newPage]
          ++ (tryExceptFinally (verify_analysis_ui_body env)
              (verify_analysis_ui_handler env) (pyDo Event.browserClose)).events,
         (tryExceptFinally (verify_analysis_ui_body env)
            (verify_analysis_ui_handler env) (pyDo Event.browserClose)).result⟩ := rfl

/-- The finally-clause events are always a suffix of a guarded run's
events, whatever the body and handler did. -/
theorem tryEF_fin_suffix (body : Py Unit) (h : String → Py Unit) (fin : Py Unit) :
    ∃ l, (tryExceptFinally body h fin).events = l ++ fin.events := by
  rcases body with ⟨evs, r⟩
  cases r with
  | ok a => exact ⟨evs, rfl⟩
  | error m =>
    rcases hh : h m with ⟨hevs, hr⟩
    cases hr with
    | ok a => exact ⟨evs ++ hevs, by simp [tryExceptFinally, hh]⟩
    | error m2 => exact ⟨evs ++ hevs, by simp [tryExceptFinally, hh]⟩

/-- When the guarded body raises, the run's events are the body's events,
then the handler's, then the finally-clause's. -/
theorem tryEF_events_of_error (evs : List Event) (h : String → Py Unit)
    (fin : Py Unit) (m : String) :
    (tryExceptFinally ⟨evs, Except.error m⟩ h fin).events
      = evs ++ ((h m).events ++ fin.events) := by
  rcases hh : h m with ⟨hevs, hr⟩
  cases hr with
  | ok a => simp [tryExceptFinally, hh]
  | error m2 => simp [tryExceptFinally, hh]

/-- When the guarded body raises and the handler completes normally, the
run completes normally (with the finally-clause's result). -/
theorem tryEF_result_handler_ok (evs : List Event) (h : String → Py Unit)
    (fin : Py Unit) (m : String) (hh : (h m).result = Except.ok ()) :
    (tryExceptFinally ⟨evs, Except.error m⟩ h fin).result = fin.result := by
  rcases hh2 : h m with ⟨hevs, hr⟩
  cases hr with
  | ok a => simp [tryExceptFinally, hh2]
  | error m2 => rw [hh2] at hh; simp at hh

/-- When the guarded body raises and the handler itself raises, the
handler's exception propagates (the finally-clause here never raises). -/
theorem tryEF_result_handler_error (evs : List Event) (h : String → Py Unit)
    (fin : Py Unit) (m m2 : String) (hh : (h m).result = Except.error m2)
    (hf : fin.result = Except.ok ()) :
    (tryExceptFinally ⟨evs, Except.error m⟩ h fin).result = Except.error m2 := by
  rcases hh2 : h m with ⟨hevs, hr⟩
  cases hr with
  | ok a => rw [hh2] at hh; simp at hh
  | error m4 =>
    have hm4 : m4 = m2 := by
      rw [hh2] at hh
      have h5 : Except.error (ε := String) (α := Unit) m4 = Except.error m2 := hh
      injection h5
    subst hm4
    simp [tryExceptFinally, hh2, hf]

/-- `browser.close()` appears in the events of every guarded run whose
finally-clause is `browser.close()`. -/
theorem tryEF_close_mem (body : Py Unit) (h : String → Py Unit) :
    Event.browserClose
      ∈ (tryExceptFinally body h (pyDo Event.browserClose)).events := by
  obtain ⟨l, hl⟩ := tryEF_fin_suffix body h (pyDo Event.browserClose)
  rw [hl]
  simp [pyDo]

theorem verify_manual_button_events (env : Env) :
    (verify_manual_button env).events
      = [Event.launch, Event.newContext 393 852, Event.newPage]
        ++ (tryExceptFinally (verify_manual_button_body env)
            (verify_manual_button_handler env) (pyDo Event.browserClose)).events := rfl

theorem verify_manual_button_result (env : Env) :
    (verify_manual_button env).result
      = (tryExceptFinally (verify_manual_button_body env)
          (verify_manual_button_handler env) (pyDo Event.browserClose)).result := rfl

theorem verify_analysis_ui_events (env : Env) :
    (verify_analysis_ui env).events
      = [Event.launch, Event.newContext 393 852, Event.newPage]
        ++ (tryExceptFinally (verify_analysis_ui_body env)
            (verify_analysis_ui_handler env) (pyDo Event.browserClose)).events := rfl

theorem verify_analysis_ui_result (env : Env) :
    (verify_analysis_ui env).result
      = (tryExceptFinally (verify_analysis_ui_body env)
          (verify_analysis_ui_handler env) (pyDo Event.browserClose)).result := rfl

/-- The except-block of verify_manual_button when the diagnostic
screenshot succeeds. -/
theorem manual_handler_shot_ok (env : Env) (m : String)
    (hs : env.shotErr "verification/error.png" = none) :
    verify_manual_button_handler env m
      = ⟨[Event.print ("Error: " ++ m),
          Event.screenshot "verification/error.png"], Except.ok ()⟩ := by
  simp [verify_manual_button_handler, pyPrint, pyDo, pyTry,
        Py.bind_eq, Py.bind, hs]

/-- The except-block of verify_manual_button when the diagnostic
screenshot itself raises. -/
theorem manual_handler_shot_err (env : Env) (m m2 : String)
    (hs : env.shotErr "verification/error.png" = some m2) :
    verify_manual_button_handler env m
      = ⟨[Event.print ("Error: " ++ m)], Except.error m2⟩ := by
  simp [verify_manual_button_handler, pyPrint, pyDo, pyTry,
        Py.bind_eq, Py.bind, hs]

/-- The except-block of verify_analysis_ui when the diagnostic screenshot
succeeds. -/
theorem analysis_handler_shot_ok (env : Env) (m : String)
    (hs : env.shotErr "verification/error_analysis.png" = none) :
    verify_analysis_ui_handler env m
      = ⟨[Event.print ("Error: " ++ m),
          Event.screenshot "verification/error_analysis.png"], Except.ok ()⟩ := by
  simp [verify_analysis_ui_handler, pyPrint, pyDo, pyTry,
        Py.bind_eq, Py.bind, hs]

/-- The except-block of verify_analysis_ui when the diagnostic screenshot
itself raises. -/
theorem analysis_handler_shot_err (env : Env) (m m2 : String)
    (hs : env.shotErr "verification/error_analysis.png" = some m2) :
    verify_analysis_ui_handler env m
      = ⟨[Event.print ("Error: " ++ m)], Except.error m2⟩ := by
  simp [verify_analysis_ui_handler, pyPrint, pyDo, pyTry,
        Py.bind_eq, Py.bind, hs]

/-! ### Claim theorems -/

/-- C6.  Scenario A: with viewport 393x852, verify_ui performs, in order,
Navigate to the base URL, the home screenshot, the click on the element
with text "Manual", and the editor screenshot; when every step succeeds
the run completes normally and exactly the two screenshot files are
written, in that order. -/
theorem C6_scenarioA :
    (verify_ui envOk).result = Except.ok () ∧
    (verify_ui envOk).events =
      [Event.launch, Event.newContext 393 852, Event.newPage,
       Event.goto "http://localhost:3000/",
       Event.screenshot "/home/jules/verification/home_v2.png",
       Event.print "Home screenshot taken",
       Event.clickText "Manual",
       Event.screenshot "/home/jules/verification/editor_v2.png",
       Event.print "Editor screenshot taken",
       Event.browserClose] ∧
    screenshotsOf (verify_ui envOk).events =
      ["/home/jules/verification/home_v2.png",
       "/home/jules/verification/editor_v2.png"] := by
  refine ⟨rfl, rfl, rfl⟩

/-- C3.  In verify_manual_button, when navigation and the wait succeed and
the visibility check on the Manual button returns false, the run only
prints "Manual button NOT visible!": no screenshot is taken, no error is
raised, and the run completes normally (closing the browser). -/
theorem C3_notVisible_soft (env : Env) (h1 : env.gotoErr = none)
    (h2 : env.waitErr = none) (h3 : env.isVisibleRes = Except.ok false) :
    (verify_manual_button env).result = Except.ok () ∧
    screenshotsOf (verify_manual_button env).events = [] ∧
    (verify_manual_button env).events =
      [Event.launch, Event.newContext 393 852, Event.newPage,
       Event.print "Navigating to home...",
       Event.goto "http://localhost:3000",
       Event.print "Waiting for \x27Filament ID\x27...",
       Event.waitForSelector "text=Filament ID" none,
       Event.locate "text=Manual",
       Event.print "Checking visibility...",
       Event.isVisibleCheck "text=Manual",
       Event.print "Manual button NOT visible!",
       Event.browserClose] := by
  have hbody : verify_manual_button_body env
      = ⟨[Event.print "Navigating to home...",
          Event.goto "http://localhost:3000",
          Event.print "Waiting for \x27Filament ID\x27...",
          Event.waitForSelector "text=Filament ID" none,
          Event.locate "text=Manual",
          Event.print "Checking visibility...",
          Event.isVisibleCheck "text=Manual",
          Event.print "Manual button NOT visible!"], Except.ok ()⟩ := by
    simp [verify_manual_button_body, pyPrint, pyDo, pyTry, pyCheck,
          Py.bind_eq, Py.bind, h1, h2, h3]
  rw [verify_manual_button_decompose, hbody]
  exact ⟨rfl, rfl, rfl⟩

/-- C3 witness: concrete environment in which the visibility check
returns false. -/
theorem C3_notVisible_soft_witness :
    (verify_manual_button envNotVisible).result = Except.ok () ∧
    screenshotsOf (verify_manual_button envNotVisible).events = [] := by
  have h := C3_notVisible_soft envNotVisible rfl rfl rfl
  exact ⟨h.1, h.2.1⟩

/-- C5.  Across the three scripts there are exactly two wait-for-text
steps: verify_manual_button waits for "text=Filament ID" with no explicit
timeout (Playwright's default bound of 30000 ms), and verify_analysis_ui
waits for "text=NEURAL SCAN" with an explicit 5000 ms timeout; and when
the environment reports that the text was not observed in time, the wait
raises and the body fails with that timeout error. -/
theorem C5_wait_timeouts (env : Env) (m : String) :
    waitsOf (verify_ui envOk).events = [] ∧
    waitsOf (verify_manual_button envOk).events = [("text=Filament ID", none)] ∧
    waitsOf (verify_analysis_ui envOk).events = [("text=NEURAL SCAN", some 5000)] ∧
    effectiveTimeoutMs none = 30000 ∧
    effectiveTimeoutMs (some 5000) = 5000 ∧
    (env.gotoErr = none → env.waitErr = some m →
      (verify_manual_button_body env).result = Except.error m) ∧
    (env.gotoErr = none → env.writeErr = none → env.setFilesErr = none →
      env.waitErr = some m →
      (verify_analysis_ui_body env).result = Except.error m) := by
  refine ⟨rfl, rfl, rfl, rfl, rfl, ?_, ?_⟩
  · intro hg hw
    simp [verify_manual_button_body, pyPrint, pyDo, pyTry, pyCheck,
          Py.bind_eq, Py.bind, hg, hw]
  · intro hg hwr hsf hw
    simp [verify_analysis_ui_body, pyPrint, pyDo, pyTry,
          Py.bind_eq, Py.bind, hg, hwr, hsf, hw]

/-- C5 witness: with a timed-out wait, verify_manual_button's body fails
with the timeout message. -/
theorem C5_wait_timeouts_witness :
    (verify_manual_button_body envWaitTimeout).result
      = Except.error "Timeout 5000ms exceeded." := by
  exact (C5_wait_timeouts envWaitTimeout "Timeout 5000ms exceeded.").2.2.2.2.2.1
    rfl rfl

set_option maxRecDepth 100000 in
/-- C8.  The byte literal written as the upload fixture is a structurally
valid minimal PNG: it starts with the PNG signature, its chunk layout
parses exactly to an empty IEND chunk at the end of the file, every CRC
of its three chunks (IHDR, IDAT, IEND) is correct, and its IHDR chunk
declares width 1 and height 1. -/
theorem C8_fixture_png :
    dummy_png_bytes.take 8 = pngSignature ∧
    dummy_png_bytes.length = 67 ∧
    (∀ b ∈ dummy_png_bytes, b < 256) ∧
    chunksOk dummy_png_bytes.length (dummy_png_bytes.drop 8) = true ∧
    ihdrWH dummy_png_bytes = some (1, 1) ∧
    crc32 ((dummy_png_bytes.drop 12).take 17) = be32 31 21 196 137 ∧
    crc32 ((dummy_png_bytes.drop 37).take 14) = be32 13 10 45 180 ∧
    crc32 ((dummy_png_bytes.drop 59).take 4) = be32 174 66 96 130 := by
  refine ⟨rfl, rfl, by decide, by decide, rfl, by decide, by decide, by decide⟩

/-- C10.  `browser.close()` (the finally clause of the two guarded
scripts) executes on every exit path: for every environment — including
those in which the diagnostic screenshot inside the except block itself
raises — the run's event trace contains the browser-close event. -/
theorem C10_close_every_path (env : Env) :
    Event.browserClose ∈ (verify_manual_button env).events ∧
    Event.browserClose ∈ (verify_analysis_ui env).events := by
  constructor
  · rw [verify_manual_button_events]
    exact List.mem_append_right _ (tryEF_close_mem _ _)
  · rw [verify_analysis_ui_events]
    exact List.mem_append_right _ (tryEF_close_mem _ _)

/-- C7.  Whenever the body of a guarded probe fails with message `m`, the
run prints exactly the line "Error: " followed by `m`. -/
theorem C7_error_line (env : Env) (m : String) :
    ((verify_manual_button_body env).result = Except.error m →
      Event.print ("Error: " ++ m) ∈ (verify_manual_button env).events) ∧
    ((verify_analysis_ui_body env).result = Except.error m →
      Event.print ("Error: " ++ m) ∈ (verify_analysis_ui env).events) := by
  constructor
  · intro hb
    rcases hbody : verify_manual_button_body env with ⟨bevs, br⟩
    rw [hbody] at hb
    have hbr : br = Except.error m := hb
    subst hbr
    rw [verify_manual_button_events, hbody, tryEF_events_of_error]
    simp [verify_manual_button_handler, pyPrint, pyDo, Py.bind_eq, Py.bind]
  · intro hb
    rcases hbody : verify_analysis_ui_body env with ⟨bevs, br⟩
    rw [hbody] at hb
    have hbr : br = Except.error m := hb
    subst hbr
    rw [verify_analysis_ui_events, hbody, tryEF_events_of_error]
    simp [verify_analysis_ui_handler, pyPrint, pyDo, Py.bind_eq, Py.bind]

/-- C7 witness: with navigation refused, verify_manual_button prints the
"Error: "-prefixed message. -/
theorem C7_error_line_witness :
    Event.print ("Error: " ++ "net::ERR_CONNECTION_REFUSED")
      ∈ (verify_manual_button envGotoFail).events := by
  exact (C7_error_line envGotoFail "net::ERR_CONNECTION_REFUSED").1 rfl

/-- C1 counterexample: the claim quantifies over every script in the
repository, but scripts/verify_ui.py has no try/except/finally at all:
when `page.goto` raises, the exception escapes verify_ui, no screenshot
(error or otherwise) is captured, and `browser.close()` is never
reached. -/
theorem C1_counterexample :
    (verify_ui envGotoFail).result
      = Except.error "net::ERR_CONNECTION_REFUSED" ∧
    screenshotsOf (verify_ui envGotoFail).events = [] ∧
    Event.browserClose ∉ (verify_ui envGotoFail).events := by
  refine ⟨rfl, rfl, by decide⟩

/-- C1 amended: the two verification scripts (verify_manual_button and
verify_analysis_ui) wrap their step sequence in try/except/finally: the
browser is closed on every exit path, and on any body exception an error
screenshot is attempted (and captured whenever the screenshot call
succeeds).  scripts/verify_ui.py has no such wrapper: on an exception the
error escapes, no screenshot is captured and browser.close() is not
reached. -/
theorem C1_amended_guard (env : Env) (m : String) :
    (Event.browserClose ∈ (verify_manual_button env).events ∧
     Event.browserClose ∈ (verify_analysis_ui env).events) ∧
    ((verify_manual_button_body env).result = Except.error m →
      env.shotErr "verification/error.png" = none →
      Event.screenshot "verification/error.png"
        ∈ (verify_manual_button env).events) ∧
    ((verify_analysis_ui_body env).result = Except.error m →
      env.shotErr "verification/error_analysis.png" = none →
      Event.screenshot "verification/error_analysis.png"
        ∈ (verify_analysis_ui env).events) ∧
    (env.gotoErr = some m →
      (verify_ui env).result = Except.error m ∧
      screenshotsOf (verify_ui env).events = [] ∧
      Event.browserClose ∉ (verify_ui env).events) := by
  refine ⟨⟨?_, ?_⟩, ?_, ?_, ?_⟩
  · rw [verify_manual_button_events]
    exact List.mem_append_right _ (tryEF_close_mem _ _)
  · rw [verify_analysis_ui_events]
    exact List.mem_append_right _ (tryEF_close_mem _ _)
  · intro hb hs
    rcases hbody : verify_manual_button_body env with ⟨bevs, br⟩
    rw [hbody] at hb
    have hbr : br = Except.error m := hb
    subst hbr
    rw [verify_manual_button_events, hbody, tryEF_events_of_error,
        manual_handler_shot_ok env m hs]
    simp
  · intro hb hs
    rcases hbody : verify_analysis_ui_body env with ⟨bevs, br⟩
    rw [hbody] at hb
    have hbr : br = Except.error m := hb
    subst hbr
    rw [verify_analysis_ui_events, hbody, tryEF_events_of_error,
        analysis_handler_shot_ok env m hs]
    simp
  · intro hg
    refine ⟨?_, ?_, ?_⟩ <;>
      simp [verify_ui, setup, pyPrint, pyDo, pyTry, Py.bind_eq, Py.bind,
            hg, screenshotsOf]

/-- C1 amended, witness at a concrete failing environment. -/
theorem C1_amended_guard_witness :
    Event.browserClose ∈ (verify_manual_button envGotoFail).events ∧
    Event.screenshot "verification/error.png"
      ∈ (verify_manual_button envGotoFail).events ∧
    Event.browserClose ∉ (verify_ui envGotoFail).events := by
  have h := C1_amended_guard envGotoFail "net::ERR_CONNECTION_REFUSED"
  exact ⟨h.1.1, h.2.1 rfl rfl, (h.2.2.2 rfl).2.2⟩

/-- C2 counterexample: the diagnostic error screenshot is not best-effort.
With the dev server down and the page already unusable, the screenshot
call inside the except block raises, and that exception propagates past
the probe boundary (verify_manual_button itself ends in an uncaught
error); no error screenshot is captured. -/
theorem C2_counterexample :
    (verify_manual_button envShotAlsoFails).result
      = Except.error "Target closed" ∧
    Event.screenshot "verification/error.png"
      ∉ (verify_manual_button envShotAlsoFails).events := by
  refine ⟨rfl, by decide⟩

/-- C2 amended: on a caught step failure the probe prints the message and
attempts one diagnostic screenshot, but the attempt is not guarded: when
the screenshot succeeds no error propagates past the probe boundary, and
when the screenshot attempt itself fails its exception propagates out of
the probe (the finally clause still closes the browser first). -/
theorem C2_amended_screenshot_unguarded (env : Env) (m m2 : String) :
    ((verify_manual_button_body env).result = Except.error m →
      env.shotErr "verification/error.png" = none →
      (verify_manual_button env).result = Except.ok ()) ∧
    ((verify_manual_button_body env).result = Except.error m →
      env.shotErr "verification/error.png" = some m2 →
      (verify_manual_button env).result = Except.error m2 ∧
      Event.browserClose ∈ (verify_manual_button env).events) ∧
    ((verify_analysis_ui_body env).result = Except.error m →
      env.shotErr "verification/error_analysis.png" = none →
      (verify_analysis_ui env).result = Except.ok ()) ∧
    ((verify_analysis_ui_body env).result = Except.error m →
      env.shotErr "verification/error_analysis.png" = some m2 →
      (verify_analysis_ui env).result = Except.error m2 ∧
      Event.browserClose ∈ (verify_analysis_ui env).events) := by
  refine ⟨?_, ?_, ?_, ?_⟩
  · intro hb hs
    rcases hbody : verify_manual_button_body env with ⟨bevs, br⟩
    rw [hbody] at hb
    have hbr : br = Except.error m := hb
    subst hbr
    rw [verify_manual_button_result, hbody,
        tryEF_result_handler_ok bevs _ _ m
          (by rw [manual_handler_shot_ok env m hs])]
    rfl
  · intro hb hs
    rcases hbody : verify_manual_button_body env with ⟨bevs, br⟩
    rw [hbody] at hb
    have hbr : br = Except.error m := hb
    subst hbr
    constructor
    · rw [verify_manual_button_result, hbody,
          tryEF_result_handler_error bevs _ _ m m2
            (by rw [manual_handler_shot_err env m m2 hs]) rfl]
    · rw [verify_manual_button_events]
      exact List.mem_append_right _ (tryEF_close_mem _ _)
  · intro hb hs
    rcases hbody : verify_analysis_ui_body env with ⟨bevs, br⟩
    rw [hbody] at hb
    have hbr : br = Except.error m := hb
    subst hbr
    rw [verify_analysis_ui_result, hbody,
        tryEF_result_handler_ok bevs _ _ m
          (by rw [analysis_handler_shot_ok env m hs])]
    rfl
  · intro hb hs
    rcases hbody : verify_analysis_ui_body env with ⟨bevs, br⟩
    rw [hbody] at hb
    have hbr : br = Except.error m := hb
    subst hbr
    constructor
    · rw [verify_analysis_ui_result, hbody,
          tryEF_result_handler_error bevs _ _ m m2
            (by rw [analysis_handler_shot_err env m m2 hs]) rfl]
    · rw [verify_analysis_ui_events]
      exact List.mem_append_right _ (tryEF_close_mem _ _)

/-- C2 amended, witness: the two sides at concrete environments — the
failure is swallowed when the diagnostic screenshot succeeds, and
propagates when the screenshot itself raises. -/
theorem C2_amended_screenshot_unguarded_witness :
    (verify_manual_button envGotoFail).result = Except.ok () ∧
    (verify_manual_button envShotAlsoFails).result
      = Except.error "Target closed" ∧
    Event.browserClose ∈ (verify_manual_button envShotAlsoFails).events := by
  have h1 := (C2_amended_screenshot_unguarded envGotoFail
    "net::ERR_CONNECTION_REFUSED" "Target closed").1 rfl rfl
  have h2 := (C2_amended_screenshot_unguarded envShotAlsoFails
    "net::ERR_CONNECTION_REFUSED" "Target closed").2.1 rfl rfl
  exact ⟨h1, h2.1, h2.2⟩

/-- C9.  The fixture file verification/dummy.png is written before the
file input is located or the awaited text checked: in every run that
reaches the upload step (navigation and the write succeed) — whatever
happens afterwards, including every run that fails at or after the
upload step — the write event is in the trace and the final filesystem
maps the fixture path to the PNG bytes, so the on-disk state is not
unchanged on error.  The last three conjuncts show that each failure
mode the claim names (no matching input, the awaited text never
appearing, the final screenshot failing) does make the body fail. -/
theorem C9_fixture_persists_on_error (env : Env) (m : String)
    (fs0 : String → Option FileData)
    (h1 : env.gotoErr = none) (h2 : env.writeErr = none) :
    Event.writeFile "verification/dummy.png" dummy_png_bytes
      ∈ (verify_analysis_ui env).events ∧
    finalFS fs0 (verify_analysis_ui env).events "verification/dummy.png"
      = some (FileData.bytes dummy_png_bytes) ∧
    (env.setFilesErr = some m →
      (verify_analysis_ui_body env).result = Except.error m) ∧
    (env.setFilesErr = none → env.waitErr = some m →
      (verify_analysis_ui_body env).result = Except.error m) ∧
    (env.setFilesErr = none → env.waitErr = none →
      env.shotErr "verification/analysis_ui_check.png" = some m →
      (verify_analysis_ui_body env).result = Except.error m) := by
  have hmain : Event.writeFile "verification/dummy.png" dummy_png_bytes
      ∈ (verify_analysis_ui env).events ∧
      finalFS fs0 (verify_analysis_ui env).events "verification/dummy.png"
        = some (FileData.bytes dummy_png_bytes) := by
    rcases hsf : env.setFilesErr with _ | ms
    · rcases hw : env.waitErr with _ | mw
      · rcases hshot : env.shotErr "verification/analysis_ui_check.png" with _ | ms2
        · -- every step succeeds
          have hbody : verify_analysis_ui_body env
              = ⟨[Event.print "Navigating to home...",
                  Event.goto "http://localhost:3000",
                  Event.print "Uploading dummy image...",
                  Event.writeFile "verification/dummy.png" dummy_png_bytes,
                  Event.locate "input[type=\"file\"]",
                  Event.setInputFiles "input[type=\"file\"]" "verification/dummy.png",
                  Event.print "Waiting for Analysis View...",
                  Event.waitForSelector "text=NEURAL SCAN" (some 5000),
                  Event.print "Taking screenshot...",
                  Event.screenshot "verification/analysis_ui_check.png",
                  Event.print "Screenshot saved to verification/analysis_ui_check.png"],
                 Except.ok ()⟩ := by
            simp [verify_analysis_ui_body, pyPrint, pyDo, pyTry,
                  Py.bind_eq, Py.bind, h1, h2, hsf, hw, hshot]
          rw [verify_analysis_ui_events, hbody]
          exact ⟨by simp [tryExceptFinally, pyDo], rfl⟩
        · -- the final screenshot fails
          have hbody : verify_analysis_ui_body env
              = ⟨[Event.print "Navigating to home...",
                  Event.goto "http://localhost:3000",
                  Event.print "Uploading dummy image...",
                  Event.writeFile "verification/dummy.png" dummy_png_bytes,
                  Event.locate "input[type=\"file\"]",
                  Event.setInputFiles "input[type=\"file\"]" "verification/dummy.png",
                  Event.print "Waiting for Analysis View...",
                  Event.waitForSelector "text=NEURAL SCAN" (some 5000),
                  Event.print "Taking screenshot..."], Except.error ms2⟩ := by
            simp [verify_analysis_ui_body, pyPrint, pyDo, pyTry,
                  Py.bind_eq, Py.bind, h1, h2, hsf, hw, hshot]
          rcases hs : env.shotErr "verification/error_analysis.png" with _ | m3
          · rw [verify_analysis_ui_events, hbody, tryEF_events_of_error,
                analysis_handler_shot_ok env ms2 hs]
            exact ⟨by simp, rfl⟩
          · rw [verify_analysis_ui_events, hbody, tryEF_events_of_error,
                analysis_handler_shot_err env ms2 m3 hs]
            exact ⟨by simp, rfl⟩
      · -- the awaited text never appears (wait timeout)
        have hbody : verify_analysis_ui_body env
            = ⟨[Event.print "Navigating to home...",
                Event.goto "http://localhost:3000",
                Event.print "Uploading dummy image...",
                Event.writeFile "verification/dummy.png" dummy_png_bytes,
                Event.locate "input[type=\"file\"]",
                Event.setInputFiles "input[type=\"file\"]" "verification/dummy.png",
                Event.print "Waiting for Analysis View..."], Except.error mw⟩ := by
          simp [verify_analysis_ui_body, pyPrint, pyDo, pyTry,
                Py.bind_eq, Py.bind, h1, h2, hsf, hw]
        rcases hs : env.shotErr "verification/error_analysis.png" with _ | m3
        · rw [verify_analysis_ui_events, hbody, tryEF_events_of_error,
              analysis_handler_shot_ok env mw hs]
          exact ⟨by simp, rfl⟩
        · rw [verify_analysis_ui_events, hbody, tryEF_events_of_error,
              analysis_handler_shot_err env mw m3 hs]
          exact ⟨by simp, rfl⟩
    · -- no element matches the file-input selector (upload step fails)
      have hbody : verify_analysis_ui_body env
          = ⟨[Event.print "Navigating to home...",
              Event.goto "http://localhost:3000",
              Event.print "Uploading dummy image...",
              Event.writeFile "verification/dummy.png" dummy_png_bytes,
              Event.locate "input[type=\"file\"]"], Except.error ms⟩ := by
        simp [verify_analysis_ui_body, pyPrint, pyDo, pyTry,
              Py.bind_eq, Py.bind, h1, h2, hsf]
      rcases hs : env.shotErr "verification/error_analysis.png" with _ | m3
      · rw [verify_analysis_ui_events, hbody, tryEF_events_of_error,
            analysis_handler_shot_ok env ms hs]
        exact ⟨by simp, rfl⟩
      · rw [verify_analysis_ui_events, hbody, tryEF_events_of_error,
            analysis_handler_shot_err env ms m3 hs]
        exact ⟨by simp, rfl⟩
  refine ⟨hmain.1, hmain.2, ?_, ?_, ?_⟩
  · intro hsf
    simp [verify_analysis_ui_body, pyPrint, pyDo, pyTry, Py.bind_eq, Py.bind,
          h1, h2, hsf]
  · intro hsf hw
    simp [verify_analysis_ui_body, pyPrint, pyDo, pyTry, Py.bind_eq, Py.bind,
          h1, h2, hsf, hw]
  · intro hsf hw hshot
    simp [verify_analysis_ui_body, pyPrint, pyDo, pyTry, Py.bind_eq, Py.bind,
          h1, h2, hsf, hw, hshot]

/-- C9 witness: two concrete failing runs — one where the awaited text
never appears (wait timeout), one where no element matches the
file-input selector — in both of which the fixture file persists on
disk. -/
theorem C9_fixture_persists_on_error_witness :
    Event.writeFile "verification/dummy.png" dummy_png_bytes
      ∈ (verify_analysis_ui envWaitTimeout).events ∧
    finalFS (fun _ => none) (verify_analysis_ui envWaitTimeout).events
      "verification/dummy.png" = some (FileData.bytes dummy_png_bytes) ∧
    (verify_analysis_ui_body envWaitTimeout).result
      = Except.error "Timeout 5000ms exceeded." ∧
    finalFS (fun _ => none) (verify_analysis_ui envUploadFail).events
      "verification/dummy.png" = some (FileData.bytes dummy_png_bytes) ∧
    (verify_analysis_ui_body envUploadFail).result
      = Except.error "no element matches the selector" := by
  have h := C9_fixture_persists_on_error envWaitTimeout
    "Timeout 5000ms exceeded." (fun _ => none) rfl rfl
  have h2 := C9_fixture_persists_on_error envUploadFail
    "no element matches the selector" (fun _ => none) rfl rfl
  exact ⟨h.1, h.2.1, h.2.2.2.1 rfl rfl, h2.2.1, h2.2.2.1 rfl⟩

/-- C4 counterexample: the fixture file is not created-only-if-absent.
On a filesystem where verification/dummy.png already exists with contents
[0], a successful run leaves the file holding the PNG literal: the
pre-existing file is overwritten, not reused. -/
theorem C4_counterexample :
    fsPre "verification/dummy.png" = some (FileData.bytes [0]) ∧
    finalFS fsPre (verify_analysis_ui envOk).events "verification/dummy.png"
      = some (FileData.bytes dummy_png_bytes) ∧
    finalFS fsPre (verify_analysis_ui envOk).events "verification/dummy.png"
      ≠ fsPre "verification/dummy.png" := by
  refine ⟨rfl, rfl, by decide⟩

/-- C4 amended: the UploadFile step writes the fixture file
unconditionally on every run — `open(..., "wb")` truncates — so a
pre-existing file at verification/dummy.png is overwritten with the
constant PNG bytes, and when the file is absent it is created with those
bytes. -/
theorem C4_amended_overwrite (fs0 : String → Option FileData)
    (h : fs0 "verification/dummy.png" = some (FileData.bytes [0])) :
    finalFS fs0 (verify_analysis_ui envOk).events "verification/dummy.png"
      = some (FileData.bytes dummy_png_bytes) ∧
    finalFS fs0 (verify_analysis_ui envOk).events "verification/dummy.png"
      ≠ fs0 "verification/dummy.png" ∧
    finalFS (fun _ => none) (verify_analysis_ui envOk).events
      "verification/dummy.png" = some (FileData.bytes dummy_png_bytes) := by
  refine ⟨rfl, ?_, rfl⟩
  rw [h]
  have hL : finalFS fs0 (verify_analysis_ui envOk).events "verification/dummy.png"
      = some (FileData.bytes dummy_png_bytes) := rfl
  rw [hL]
  decide

/-- C4 amended, witness at the concrete pre-populated filesystem. -/
theorem C4_amended_overwrite_witness :
    finalFS fsPre (verify_analysis_ui envOk).events "verification/dummy.png"
      = some (FileData.bytes dummy_png_bytes) ∧
    finalFS fsPre (verify_analysis_ui envOk).events "verification/dummy.png"
      ≠ fsPre "verification/dummy.png" := by
  have h := C4_amended_overwrite fsPre rfl
  exact ⟨h.1, h.2.1⟩

end FilamentLabelD30
